import Mathlib

/-!
Verification of the stealthium example script (src/example.py).

The script is sequential glue code over an external driver library
(`StealthChrome`). We embed it shallowly: every observable action of the
script (driver calls, prints, sleeps, the traceback printer, function
entries) becomes an `Event`; the external library's behaviour in one run is
an `Env` giving each driver call's response (a value, or an exception
message); the script itself becomes a pure function from `Env` to a trace
of events paired with an outcome (normal completion or a propagating
exception).
-/

namespace Stealthium

/-- The chrome options object built via the selenium Options class in
example_custom_options: only the added arguments are observable here. -/
structure ChromeOptions where
  arguments : List String
  deriving DecidableEq

/-- Configuration keywords passed to the StealthChrome constructor at a call
site; a keyword the call site does not pass is `none`. -/
structure Config where
  headless : Option Bool
  incognito : Option Bool
  options : Option ChromeOptions
  proxy_host : Option String
  proxy_port : Option Nat
  proxy_user : Option String
  proxy_password : Option String
  deriving DecidableEq

/-- The driver-directed operations of the wrapper's interface. The script
uses only some of them; `back`, `forward`, `refresh`, `set_window_size` and
`add_cookie` stand for the rest of the standard WebDriver surface and are
here so that the interface-usage claims are not vacuous. -/
inductive DriverOp where
  | construct (cfg : Config)
  | get (url : String)
  | title
  | current_url
  | page_source
  | find_element (strategy locator : String)
  | find_elements (strategy locator : String)
  | execute_script (code : String)
  | get_cookies
  | get_window_size
  | get_headers
  | quit
  | back
  | forward
  | refresh
  | set_window_size (w h : Nat)
  | add_cookie (name value : String)
  deriving DecidableEq

/-- A page element as the script consumes it: only its text is read. -/
structure Element where
  text : String
  deriving DecidableEq

/-- One observable event of a run. A driver call records whether the library
raised on it; `enter n` marks entry into the example function named `n`;
`traceback` is the stack-trace printer of the top-level handler. -/
inductive Event where
  | call (op : DriverOp) (raised : Bool)
  | print (s : String)
  | sleep (secs : Nat)
  | traceback
  | enter (name : String)
  deriving DecidableEq

/-- The external driver library's behaviour in one run: the response (normal
value, or exception message) to each driver call the script can make. -/
structure Env where
  onConstruct : Config → Except String Unit
  onGet : String → Except String Unit
  onTitle : Except String String
  onCurrentUrl : Except String String
  onPageSource : Except String String
  onFindElement : String → String → Except String Element
  onFindElements : String → String → Except String (List Element)
  onExecuteScript : String → Except String String
  onGetCookies : Except String (List String)
  onGetWindowSize : Except String (List (String × Nat))
  onGetHeaders : Except String (List (String × String))
  onQuit : Except String Unit

/-- A computation step of the script: the trace of events it emits together
with its outcome, a normal value or a propagating exception message. -/
def M (α : Type) : Type := List Event × Except String α

/-- A step that emits nothing and returns a value. -/
def M.pure {α : Type} (a : α) : M α := ([], Except.ok a)

/-- Sequencing: when the first step raises, the second never runs. -/
def M.bind {α β : Type} (x : M α) (f : α → M β) : M β :=
  match x with
  | (tr, Except.error e) => (tr, Except.error e)
  | (tr, Except.ok a) => (tr ++ (f a).1, (f a).2)

/-- Python try/finally: the finaliser always runs after the body; an
exception raised by the finaliser replaces the body's outcome, otherwise the
body's outcome (value or re-raised exception) stands. -/
def tryFinally {α : Type} (body : M α) (fin : M Unit) : M α :=
  (body.1 ++ fin.1,
   match fin.2 with
   | Except.error e => Except.error e
   | Except.ok _ => body.2)

/-- Emit one driver-call event and propagate the library's response. -/
def dcall {α : Type} (op : DriverOp) (r : Except String α) : M α :=
  ([Event.call op (match r with | Except.error _ => true | Except.ok _ => false)], r)

/-- A print statement. -/
def mprint (s : String) : M Unit := ([Event.print s], Except.ok ())

/-- Entry into the example function named n. -/
def menter (n : String) : M Unit := ([Event.enter n], Except.ok ())

/-- time.sleep. -/
def msleep (n : Nat) : M Unit := ([Event.sleep n], Except.ok ())

/-- Python dict.get with a default: total, never raises. -/
def dictGet (m : List (String × String)) (k d : String) : String :=
  match m.lookup k with
  | some v => v
  | none => d

/-- Python dict subscription on a string-to-number mapping: raises KeyError
when the key is absent. -/
def subscriptNat (m : List (String × Nat)) (k : String) : M Nat :=
  match m.lookup k with
  | some v => M.pure v
  | none => ([], Except.error ("KeyError: " ++ k))

/-- The quit call of a finally block or scope exit. -/
def quitStep (env : Env) : M Unit := dcall DriverOp.quit env.onQuit

/-- The acquire/try/finally-release shape every driver-acquiring example
uses: construct the driver, then run the body with quit as finaliser; when
construction raises, neither the body nor quit runs. -/
def withQuit (env : Env) (cfg : Config) (body : M Unit) : M Unit :=
  M.bind (dcall (DriverOp.construct cfg) (env.onConstruct cfg)) fun _ =>
    tryFinally body (quitStep env)

/-- Modelled from the spec: the StealthChrome context-manager protocol (its
enter and exit methods) is not under src/, only its use site is. Per the
spec the object supports "deterministic acquisition/release (manual quit()
or automatic release via a scoped context)", so entering the with-statement
constructs the session and leaving the scope, normally or exceptionally,
releases it via quit. -/
def withScope (env : Env) (cfg : Config) (body : M Unit) : M Unit :=
  M.bind (dcall (DriverOp.construct cfg) (env.onConstruct cfg)) fun _ =>
    tryFinally body (quitStep env)

/-- StealthChrome(headless=True), the constructor call of examples 1, 2, 4
and 5. -/
def cfgHeadless : Config := ⟨some true, none, none, none, none, none, none⟩

/-- The Options() object of example_custom_options after
add_argument of the window-size flag. -/
def customOptions : ChromeOptions := ⟨["--window-size=1920,1080"]⟩

/-- StealthChrome(options=options, headless=False, incognito=True). -/
def cfgCustom : Config :=
  ⟨some false, some true, some customOptions, none, none, none, none⟩

/-- The try-block body of example_basic_usage. -/
def basicBody (env : Env) : M Unit :=
  M.bind (dcall (DriverOp.get "https://example.com") (env.onGet "https://example.com")) fun _ =>
  M.bind (dcall DriverOp.title env.onTitle) fun t =>
  M.bind (mprint ("Page Title: " ++ t)) fun _ =>
  M.bind (dcall DriverOp.current_url env.onCurrentUrl) fun u =>
  M.bind (mprint ("Page URL: " ++ u)) fun _ =>
  M.bind (dcall (DriverOp.find_element "tag name" "h1") (env.onFindElement "tag name" "h1")) fun el =>
  mprint ("Found element: " ++ el.text)

/-- Embedding of example_basic_usage. -/
def example_basic_usage (env : Env) : M Unit :=
  M.bind (menter "example_basic_usage") fun _ =>
  M.bind (mprint "\n=== Example 1: Basic Usage (Just like Selenium) ===") fun _ =>
  withQuit env cfgHeadless (basicBody env)

/-- The try-block body of example_with_headers. -/
def headersBody (env : Env) : M Unit :=
  M.bind (dcall (DriverOp.get "https://httpbin.org/headers") (env.onGet "https://httpbin.org/headers")) fun _ =>
  M.bind (dcall DriverOp.get_headers env.onGetHeaders) fun headers =>
  M.bind (mprint ("User-Agent: " ++ dictGet headers "user-agent" "Not found")) fun _ =>
  mprint ("Accept: " ++ dictGet headers "accept" "Not found")

/-- Embedding of example_with_headers. -/
def example_with_headers (env : Env) : M Unit :=
  M.bind (menter "example_with_headers") fun _ =>
  M.bind (mprint "\n=== Example 2: Extract Headers ===") fun _ =>
  withQuit env cfgHeadless (headersBody env)

/-- Embedding of example_with_proxy: in the source the proxy-configured
construction and the navigation are commented out, so the function only
prints a header and a placeholder message. -/
def example_with_proxy (env : Env) : M Unit :=
  M.bind (menter "example_with_proxy") fun _ =>
  M.bind (mprint "\n=== Example 3: Using Proxy ===") fun _ =>
  mprint "(Proxy example commented out - add your proxy details to test)"

/-- The try-block body of example_selenium_compatibility. -/
def seleniumBody (env : Env) : M Unit :=
  M.bind (dcall (DriverOp.get "https://example.com") (env.onGet "https://example.com")) fun _ =>
  M.bind (dcall DriverOp.current_url env.onCurrentUrl) fun u =>
  M.bind (mprint ("Current URL: " ++ u)) fun _ =>
  M.bind (dcall DriverOp.page_source env.onPageSource) fun src =>
  M.bind (mprint ("Page Source Length: " ++ toString src.length)) fun _ =>
  M.bind (dcall (DriverOp.find_elements "tag name" "p") (env.onFindElements "tag name" "p")) fun els =>
  M.bind (mprint ("Found " ++ toString els.length ++ " paragraph elements")) fun _ =>
  M.bind (dcall (DriverOp.execute_script "return document.title;") (env.onExecuteScript "return document.title;")) fun result =>
  M.bind (mprint ("Title via JavaScript: " ++ result)) fun _ =>
  M.bind (dcall DriverOp.get_cookies env.onGetCookies) fun cookies =>
  mprint ("Cookies: " ++ toString cookies.length ++ " found")

/-- Embedding of example_selenium_compatibility. -/
def example_selenium_compatibility (env : Env) : M Unit :=
  M.bind (menter "example_selenium_compatibility") fun _ =>
  M.bind (mprint "\n=== Example 4: Full Selenium Compatibility ===") fun _ =>
  withQuit env cfgHeadless (seleniumBody env)

/-- The with-statement body of example_context_manager. -/
def contextBody (env : Env) : M Unit :=
  M.bind (dcall (DriverOp.get "https://example.com") (env.onGet "https://example.com")) fun _ =>
  M.bind (dcall DriverOp.title env.onTitle) fun t =>
  mprint ("Page Title: " ++ t)

/-- Embedding of example_context_manager. -/
def example_context_manager (env : Env) : M Unit :=
  M.bind (menter "example_context_manager") fun _ =>
  M.bind (mprint "\n=== Example 5: Context Manager ===") fun _ =>
  withScope env cfgHeadless (contextBody env)

/-- The try-block body of example_custom_options. -/
def customBody (env : Env) : M Unit :=
  M.bind (dcall (DriverOp.get "https://google.com") (env.onGet "https://google.com")) fun _ =>
  M.bind (dcall DriverOp.get_window_size env.onGetWindowSize) fun size =>
  M.bind (subscriptNat size "width") fun w =>
  M.bind (subscriptNat size "height") fun h =>
  M.bind (mprint ("Window Size: " ++ toString w ++ "x" ++ toString h)) fun _ =>
  msleep 60

/-- Embedding of example_custom_options. -/
def example_custom_options (env : Env) : M Unit :=
  M.bind (menter "example_custom_options") fun _ =>
  M.bind (mprint "\n=== Example 6: Custom Options ===") fun _ =>
  withQuit env cfgCustom (customBody env)

/-- The example sequence inside the try of the main guard: only
example_custom_options is uncommented, followed by the success prints. -/
def mainTry (env : Env) : M Unit :=
  M.bind (example_custom_options env) fun _ =>
  M.bind (mprint "\n✅ All examples completed!") fun _ =>
  M.bind (mprint "\nStealthChrome works exactly like webdriver.Chrome!") fun _ =>
  mprint "Just replace \x27webdriver.Chrome()\x27 with \x27StealthChrome()\x27"

/-- The line the top-level handler prints for an exception message. -/
def errLine (e : String) : String := "\n❌ Error: " ++ e

/-- The whole main guard: run the sequence; any exception is caught, its
message is printed and traceback.print_exc() runs; nothing re-raises. -/
def mainRun (env : Env) : M Unit :=
  ((mainTry env).1 ++
    (match (mainTry env).2 with
     | Except.ok _ => []
     | Except.error e => [Event.print (errLine e), Event.traceback]),
   Except.ok ())

/-- The driver calls of a trace, each with its raised flag. -/
def callOps (tr : List Event) : List (DriverOp × Bool) :=
  tr.filterMap fun ev =>
    match ev with
    | Event.call op r => some (op, r)
    | _ => none

/-- Whether an operation is the constructor. -/
def isConstructOp : DriverOp → Bool
  | DriverOp.construct _ => true
  | _ => false

/-- Sessions acquired in a trace: constructor calls that did not raise. -/
def acquires (tr : List Event) : Nat :=
  (callOps tr).countP fun p => isConstructOp p.1 && !p.2

/-- Sessions released in a trace: quit calls. -/
def releases (tr : List Event) : Nat :=
  (callOps tr).countP fun p => p.1 == DriverOp.quit

/-- How many times the example function named n was entered in a trace. -/
def enters (n : String) (tr : List Event) : Nat :=
  tr.countP fun ev =>
    match ev with
    | Event.enter m => m == n
    | _ => false

/-- True when a trace contains no function-entry marker. -/
def noEnters (tr : List Event) : Bool :=
  tr.all fun ev =>
    match ev with
    | Event.enter _ => false
    | _ => true

/-- The driver interface the spec records: the constructor, the standard
WebDriver surface it lists, and the single non-standard accessor
get_headers. The rest of the WebDriver surface is outside it. -/
def recordedOp : DriverOp → Bool
  | DriverOp.construct _ => true
  | DriverOp.get _ => true
  | DriverOp.title => true
  | DriverOp.current_url => true
  | DriverOp.page_source => true
  | DriverOp.find_element _ _ => true
  | DriverOp.find_elements _ _ => true
  | DriverOp.execute_script _ => true
  | DriverOp.get_cookies => true
  | DriverOp.get_window_size => true
  | DriverOp.get_headers => true
  | DriverOp.quit => true
  | _ => false

/-- The standard WebDriver surface: the recorded interface without the
non-standard get_headers accessor. -/
def standardOp : DriverOp → Bool
  | DriverOp.get_headers => false
  | op => recordedOp op

/-- An event stays within the recorded interface when it is not a driver
call, or a driver call whose operation the spec records. -/
def recordedEvent : Event → Bool
  | Event.call op _ => recordedOp op
  | _ => true

/-- A well-behaved try-block: its driver calls are neither constructor calls
nor quit calls, it enters no example function, and every driver call it
makes is within the recorded interface. -/
def tameBody (x : M Unit) : Prop :=
  ((callOps x.1).all fun p => !isConstructOp p.1 && !(p.1 == DriverOp.quit)) = true ∧
  noEnters x.1 = true ∧
  x.1.all recordedEvent = true

/-- A concrete library behaviour where every call succeeds. -/
def envOK : Env :=
  ⟨fun _ => Except.ok (),
   fun _ => Except.ok (),
   Except.ok "Example Domain",
   Except.ok "https://example.com/",
   Except.ok "<html><body><h1>Example Domain</h1></body></html>",
   fun _ _ => Except.ok ⟨"Example Domain"⟩,
   fun _ _ => Except.ok [⟨"p one"⟩, ⟨"p two"⟩],
   fun _ => Except.ok "Example Domain",
   Except.ok [],
   Except.ok [("width", 1920), ("height", 1080)],
   Except.ok [("user-agent", "Mozilla/5.0"), ("accept", "text/html")],
   Except.ok ()⟩

/-- A concrete library behaviour whose constructor raises. -/
def envFail : Env :=
  ⟨fun _ => Except.error "boom",
   fun _ => Except.ok (),
   Except.ok "Example Domain",
   Except.ok "https://example.com/",
   Except.ok "<html></html>",
   fun _ _ => Except.ok ⟨"Example Domain"⟩,
   fun _ _ => Except.ok [],
   fun _ => Except.ok "Example Domain",
   Except.ok [],
   Except.ok [("width", 1920), ("height", 1080)],
   Except.ok [("user-agent", "Mozilla/5.0"), ("accept", "text/html")],
   Except.ok ()⟩

/-- A concrete library behaviour where every call succeeds and the header
mapping is empty. -/
def envNoHeaders : Env :=
  ⟨fun _ => Except.ok (),
   fun _ => Except.ok (),
   Except.ok "Example Domain",
   Except.ok "https://example.com/",
   Except.ok "<html></html>",
   fun _ _ => Except.ok ⟨"Example Domain"⟩,
   fun _ _ => Except.ok [],
   fun _ => Except.ok "Example Domain",
   Except.ok [],
   Except.ok [("width", 1920), ("height", 1080)],
   Except.ok [],
   Except.ok ()⟩

/-! Helper lemmas about traces and the acquire/release shape. -/

@[simp] lemma callOps_nil : callOps [] = [] := rfl

@[simp] lemma callOps_cons_call (op : DriverOp) (r : Bool) (tr : List Event) :
    callOps (Event.call op r :: tr) = (op, r) :: callOps tr := rfl

@[simp] lemma callOps_cons_print (s : String) (tr : List Event) :
    callOps (Event.print s :: tr) = callOps tr := rfl

@[simp] lemma callOps_cons_enter (n : String) (tr : List Event) :
    callOps (Event.enter n :: tr) = callOps tr := rfl

@[simp] lemma callOps_cons_sleep (n : Nat) (tr : List Event) :
    callOps (Event.sleep n :: tr) = callOps tr := rfl

@[simp] lemma callOps_cons_traceback (tr : List Event) :
    callOps (Event.traceback :: tr) = callOps tr := rfl

lemma callOps_append (a b : List Event) : callOps (a ++ b) = callOps a ++ callOps b :=
  List.filterMap_append a b _

lemma acquires_append (a b : List Event) : acquires (a ++ b) = acquires a + acquires b := by
  simp [acquires, callOps_append, List.countP_append]

lemma releases_append (a b : List Event) : releases (a ++ b) = releases a + releases b := by
  simp [releases, callOps_append, List.countP_append]

lemma enters_append (n : String) (a b : List Event) :
    enters n (a ++ b) = enters n a + enters n b := by
  simp [enters, List.countP_append]

lemma tame_countP_acquire {x : M Unit} (h : tameBody x) :
    (callOps x.1).countP (fun p => isConstructOp p.1 && !p.2) = 0 := by
  rw [List.countP_eq_zero]
  intro p hp
  have hall := List.all_eq_true.mp h.1 p hp
  simp only [Bool.and_eq_true, Bool.not_eq_true'] at hall ⊢
  intro hc
  exact absurd hall.1 (by simp [hc])

lemma tame_countP_quit {x : M Unit} (h : tameBody x) :
    (callOps x.1).countP (fun p => p.1 == DriverOp.quit) = 0 := by
  rw [List.countP_eq_zero]
  intro p hp
  have hall := List.all_eq_true.mp h.1 p hp
  simp only [Bool.and_eq_true, Bool.not_eq_true'] at hall
  simp [hall.2]

lemma basicBody_tame (env : Env) : tameBody (basicBody env) := by
  cases hg : env.onGet "https://example.com" <;>
  cases ht : env.onTitle <;>
  cases hu : env.onCurrentUrl <;>
  cases he : env.onFindElement "tag name" "h1" <;>
  simp [basicBody, tameBody, M.bind, dcall, mprint, noEnters, isConstructOp,
        recordedEvent, recordedOp, hg, ht, hu, he]

lemma headersBody_tame (env : Env) : tameBody (headersBody env) := by
  cases hg : env.onGet "https://httpbin.org/headers" <;>
  cases hh : env.onGetHeaders <;>
  simp [headersBody, tameBody, M.bind, dcall, mprint, noEnters, isConstructOp,
        recordedEvent, recordedOp, hg, hh]

lemma seleniumBody_tame (env : Env) : tameBody (seleniumBody env) := by
  cases hg : env.onGet "https://example.com" <;>
  cases hu : env.onCurrentUrl <;>
  cases hs : env.onPageSource <;>
  cases he : env.onFindElements "tag name" "p" <;>
  cases hx : env.onExecuteScript "return document.title;" <;>
  cases hk : env.onGetCookies <;>
  simp [seleniumBody, tameBody, M.bind, dcall, mprint, noEnters, isConstructOp,
        recordedEvent, recordedOp, hg, hu, hs, he, hx, hk]

lemma contextBody_tame (env : Env) : tameBody (contextBody env) := by
  cases hg : env.onGet "https://example.com" <;>
  cases ht : env.onTitle <;>
  simp [contextBody, tameBody, M.bind, dcall, mprint, noEnters, isConstructOp,
        recordedEvent, recordedOp, hg, ht]

lemma customBody_tame (env : Env) : tameBody (customBody env) := by
  cases hg : env.onGet "https://google.com" <;>
  cases hw : env.onGetWindowSize <;>
  simp only [customBody, M.bind, dcall, mprint, msleep, subscriptNat, hg, hw]
  case error.error => simp [tameBody, noEnters, isConstructOp, recordedEvent, recordedOp]
  case error.ok => simp [tameBody, noEnters, isConstructOp, recordedEvent, recordedOp]
  case ok.error => simp [tameBody, noEnters, isConstructOp, recordedEvent, recordedOp]
  case ok.ok size =>
    cases hx : size.lookup "width" <;> cases hy : size.lookup "height" <;>
    simp [tameBody, M.bind, M.pure, noEnters, isConstructOp, recordedEvent, recordedOp, hx, hy]

/-- The two possible traces of the acquire/release shape: when construction
raises the trace is just the failed constructor call; otherwise it is the
successful constructor call, the body's trace, and a final quit call. -/
lemma withQuit_eq (env : Env) (cfg : Config) (body : M Unit) :
    withQuit env cfg body =
      match env.onConstruct cfg with
      | Except.error e => ([Event.call (DriverOp.construct cfg) true], Except.error e)
      | Except.ok _ =>
          (Event.call (DriverOp.construct cfg) false ::
             (body.1 ++ [Event.call DriverOp.quit
               (match env.onQuit with | Except.error _ => true | Except.ok _ => false)]),
           match env.onQuit with
           | Except.error e2 => Except.error e2
           | Except.ok _ => body.2) := by
  cases hc : env.onConstruct cfg <;>
  cases hq : env.onQuit <;>
  simp [withQuit, tryFinally, quitStep, M.bind, dcall, hc, hq]

lemma withScope_eq_withQuit (env : Env) (cfg : Config) (body : M Unit) :
    withScope env cfg body = withQuit env cfg body := rfl

/-- In the acquire/release shape with a tame body, quit calls and successful
constructor calls balance, and at most one session is acquired. -/
lemma withQuit_counts (env : Env) (cfg : Config) (body : M Unit) (h : tameBody body) :
    releases (withQuit env cfg body).1 = acquires (withQuit env cfg body).1 ∧
    acquires (withQuit env cfg body).1 ≤ 1 := by
  rw [withQuit_eq]
  cases hc : env.onConstruct cfg
  case error e => simp [releases, acquires, isConstructOp]
  case ok u =>
    have hq0 := tame_countP_quit h
    have ha0 := tame_countP_acquire h
    cases hquit : env.onQuit <;>
    simp only [releases, acquires, callOps_cons_call, callOps_append, callOps_nil,
      List.countP_cons, List.countP_append, List.countP_nil, hq0, ha0] <;>
    simp [isConstructOp]

/-- In the acquire/release shape, the first driver call is the constructor
call, no later driver call is a constructor call, and when construction
succeeded the last driver call is a quit call. -/
lemma withQuit_shape (env : Env) (cfg : Config) (body : M Unit) (h : tameBody body) :
    ∃ b rest, callOps (withQuit env cfg body).1 = (DriverOp.construct cfg, b) :: rest ∧
      (rest.all fun p => !isConstructOp p.1) = true ∧
      (b = false → ∃ r, (callOps (withQuit env cfg body).1).getLast? =
        some (DriverOp.quit, r)) := by
  rw [withQuit_eq]
  cases hc : env.onConstruct cfg
  case error e =>
    exact ⟨true, [], by simp⟩
  case ok u =>
    refine ⟨false, callOps body.1 ++
      [(DriverOp.quit, match env.onQuit with | Except.error _ => true | Except.ok _ => false)],
      by simp [callOps_append], ?_, ?_⟩
    · rw [List.all_append, Bool.and_eq_true]
      constructor
      · rw [List.all_eq_true]
        intro p hp
        have hall := List.all_eq_true.mp h.1 p hp
        simp only [Bool.and_eq_true] at hall
        exact hall.1
      · simp [isConstructOp]
    · intro _
      cases hquit : env.onQuit
      case error e2 =>
        refine ⟨true, ?_⟩
        have hco : callOps (Event.call (DriverOp.construct cfg) false ::
            (body.1 ++ [Event.call DriverOp.quit true])) =
            ((DriverOp.construct cfg, false) :: callOps body.1) ++ [(DriverOp.quit, true)] := by
          simp [callOps_append]
        rw [hco, List.getLast?_append_cons]
        rfl
      case ok u2 =>
        refine ⟨false, ?_⟩
        have hco : callOps (Event.call (DriverOp.construct cfg) false ::
            (body.1 ++ [Event.call DriverOp.quit false])) =
            ((DriverOp.construct cfg, false) :: callOps body.1) ++ [(DriverOp.quit, false)] := by
          simp [callOps_append]
        rw [hco, List.getLast?_append_cons]
        rfl

/-- The acquire/release shape enters no example function when its body
enters none. -/
lemma withQuit_noEnters (env : Env) (cfg : Config) (body : M Unit) (h : tameBody body) :
    noEnters (withQuit env cfg body).1 = true := by
  rw [withQuit_eq]
  cases hc : env.onConstruct cfg
  case error e => simp [noEnters]
  case ok u =>
    have := h.2.1
    simp only [noEnters] at this ⊢
    simp [List.all_append, this]

/-- Each example's trace is its entry marker, its banner print, and the
acquire/release shape's trace; its outcome is the shape's outcome. -/
lemma example_basic_usage_eq (env : Env) :
    example_basic_usage env =
      (Event.enter "example_basic_usage" ::
       Event.print "\n=== Example 1: Basic Usage (Just like Selenium) ===" ::
       (withQuit env cfgHeadless (basicBody env)).1,
       (withQuit env cfgHeadless (basicBody env)).2) := rfl

lemma example_with_headers_eq (env : Env) :
    example_with_headers env =
      (Event.enter "example_with_headers" ::
       Event.print "\n=== Example 2: Extract Headers ===" ::
       (withQuit env cfgHeadless (headersBody env)).1,
       (withQuit env cfgHeadless (headersBody env)).2) := rfl

lemma example_selenium_compatibility_eq (env : Env) :
    example_selenium_compatibility env =
      (Event.enter "example_selenium_compatibility" ::
       Event.print "\n=== Example 4: Full Selenium Compatibility ===" ::
       (withQuit env cfgHeadless (seleniumBody env)).1,
       (withQuit env cfgHeadless (seleniumBody env)).2) := rfl

lemma example_context_manager_eq (env : Env) :
    example_context_manager env =
      (Event.enter "example_context_manager" ::
       Event.print "\n=== Example 5: Context Manager ===" ::
       (withQuit env cfgHeadless (contextBody env)).1,
       (withQuit env cfgHeadless (contextBody env)).2) := rfl

lemma example_custom_options_eq (env : Env) :
    example_custom_options env =
      (Event.enter "example_custom_options" ::
       Event.print "\n=== Example 6: Custom Options ===" ::
       (withQuit env cfgCustom (customBody env)).1,
       (withQuit env cfgCustom (customBody env)).2) := rfl

/-- A trace with no entry markers has entry count zero for every name. -/
lemma enters_zero_of_noEnters {tr : List Event} (h : noEnters tr = true) (n : String) :
    enters n tr = 0 := by
  rw [enters, List.countP_eq_zero]
  intro ev hev
  have := List.all_eq_true.mp h ev hev
  cases ev <;> simp_all

/-- The full-success trace of example_basic_usage: every print of a result
happens after the driver call producing it, and quit is the last call. -/
lemma basic_success_trace (env : Env) (t u : String) (el : Element)
    (hc : env.onConstruct cfgHeadless = Except.ok ())
    (hg : env.onGet "https://example.com" = Except.ok ())
    (ht : env.onTitle = Except.ok t)
    (hu : env.onCurrentUrl = Except.ok u)
    (he : env.onFindElement "tag name" "h1" = Except.ok el)
    (hq : env.onQuit = Except.ok ()) :
    example_basic_usage env =
      ([Event.enter "example_basic_usage",
        Event.print "\n=== Example 1: Basic Usage (Just like Selenium) ===",
        Event.call (DriverOp.construct cfgHeadless) false,
        Event.call (DriverOp.get "https://example.com") false,
        Event.call DriverOp.title false,
        Event.print ("Page Title: " ++ t),
        Event.call DriverOp.current_url false,
        Event.print ("Page URL: " ++ u),
        Event.call (DriverOp.find_element "tag name" "h1") false,
        Event.print ("Found element: " ++ el.text),
        Event.call DriverOp.quit false], Except.ok ()) := by
  simp [example_basic_usage, basicBody, withQuit, tryFinally, quitStep,
        M.bind, dcall, mprint, menter, hc, hg, ht, hu, he, hq]

/-- The full-success trace of example_with_headers: the non-standard
get_headers accessor is consumed once and its mapping is read with dict.get
under the header-name keys. -/
lemma headers_success_trace (env : Env) (m : List (String × String))
    (hc : env.onConstruct cfgHeadless = Except.ok ())
    (hg : env.onGet "https://httpbin.org/headers" = Except.ok ())
    (hh : env.onGetHeaders = Except.ok m)
    (hq : env.onQuit = Except.ok ()) :
    example_with_headers env =
      ([Event.enter "example_with_headers",
        Event.print "\n=== Example 2: Extract Headers ===",
        Event.call (DriverOp.construct cfgHeadless) false,
        Event.call (DriverOp.get "https://httpbin.org/headers") false,
        Event.call DriverOp.get_headers false,
        Event.print ("User-Agent: " ++ dictGet m "user-agent" "Not found"),
        Event.print ("Accept: " ++ dictGet m "accept" "Not found"),
        Event.call DriverOp.quit false], Except.ok ()) := by
  simp [example_with_headers, headersBody, withQuit, tryFinally, quitStep,
        M.bind, dcall, mprint, menter, hc, hg, hh, hq]

/-- The full-success trace of example_selenium_compatibility. -/
lemma selenium_success_trace (env : Env) (u srcS res : String)
    (els : List Element) (cookies : List String)
    (hc : env.onConstruct cfgHeadless = Except.ok ())
    (hg : env.onGet "https://example.com" = Except.ok ())
    (hu : env.onCurrentUrl = Except.ok u)
    (hs : env.onPageSource = Except.ok srcS)
    (he : env.onFindElements "tag name" "p" = Except.ok els)
    (hx : env.onExecuteScript "return document.title;" = Except.ok res)
    (hk : env.onGetCookies = Except.ok cookies)
    (hq : env.onQuit = Except.ok ()) :
    example_selenium_compatibility env =
      ([Event.enter "example_selenium_compatibility",
        Event.print "\n=== Example 4: Full Selenium Compatibility ===",
        Event.call (DriverOp.construct cfgHeadless) false,
        Event.call (DriverOp.get "https://example.com") false,
        Event.call DriverOp.current_url false,
        Event.print ("Current URL: " ++ u),
        Event.call DriverOp.page_source false,
        Event.print ("Page Source Length: " ++ toString srcS.length),
        Event.call (DriverOp.find_elements "tag name" "p") false,
        Event.print ("Found " ++ toString els.length ++ " paragraph elements"),
        Event.call (DriverOp.execute_script "return document.title;") false,
        Event.print ("Title via JavaScript: " ++ res),
        Event.call DriverOp.get_cookies false,
        Event.print ("Cookies: " ++ toString cookies.length ++ " found"),
        Event.call DriverOp.quit false], Except.ok ()) := by
  simp [example_selenium_compatibility, seleniumBody, withQuit, tryFinally,
        quitStep, M.bind, dcall, mprint, menter, hc, hg, hu, hs, he, hx, hk, hq]

/-- The example sequence under the try of the main guard runs exactly
example_custom_options and then at most the success prints, which contain no
driver calls and no entry markers. -/
lemma mainTry_decomp (env : Env) :
    ∃ tail, (mainTry env).1 = (example_custom_options env).1 ++ tail ∧
      noEnters tail = true ∧ callOps tail = [] ∧ tail.all recordedEvent = true := by
  rcases hx : example_custom_options env with ⟨tr, r⟩
  cases r
  case error e =>
    refine ⟨[], ?_, rfl, rfl, rfl⟩
    simp [mainTry, M.bind, hx]
  case ok u =>
    refine ⟨[Event.print "\n✅ All examples completed!",
             Event.print "\nStealthChrome works exactly like webdriver.Chrome!",
             Event.print "Just replace \x27webdriver.Chrome()\x27 with \x27StealthChrome()\x27"],
           ?_, rfl, rfl, rfl⟩
    simp [mainTry, M.bind, mprint, hx]

/-- When the sequence completes normally the handler adds nothing. -/
lemma mainRun_eq_ok (env : Env) (u : Unit) (h : (mainTry env).2 = Except.ok u) :
    (mainRun env).1 = (mainTry env).1 := by
  simp [mainRun, h]

/-- When the sequence raises, the handler appends exactly the error print
and the stack-trace print. -/
lemma mainRun_eq_error (env : Env) (e : String) (h : (mainTry env).2 = Except.error e) :
    (mainRun env).1 = (mainTry env).1 ++ [Event.print (errLine e), Event.traceback] := by
  simp [mainRun, h]

/-- How often each example function is entered in a whole run: exactly once
for example_custom_options, never for any other name. -/
lemma mainRun_enters (env : Env) (n : String) :
    enters n (mainRun env).1 = (if "example_custom_options" = n then 1 else 0) := by
  obtain ⟨tail, hdec, hne, _, _⟩ := mainTry_decomp env
  have hwq := enters_zero_of_noEnters
    (withQuit_noEnters env cfgCustom (customBody env) (customBody_tame env)) n
  have hcustom : enters n (example_custom_options env).1 =
      (if "example_custom_options" = n then 1 else 0) := by
    rw [show (example_custom_options env).1 = Event.enter "example_custom_options" ::
        Event.print "\n=== Example 6: Custom Options ===" ::
        (withQuit env cfgCustom (customBody env)).1 from rfl]
    simp only [enters] at hwq ⊢
    simp [List.countP_cons, hwq, beq_iff_eq]
  have htail := enters_zero_of_noEnters hne n
  cases hr : (mainTry env).2
  case error e =>
    rw [mainRun_eq_error env e hr, enters_append, hdec, enters_append,
        hcustom, htail]
    simp [enters]
  case ok u =>
    rw [mainRun_eq_ok env u hr, hdec, enters_append, hcustom, htail]
    simp

/-- The acquire/release shape stays within the recorded interface when its
body does. -/
lemma withQuit_recorded (env : Env) (cfg : Config) (body : M Unit) (h : tameBody body) :
    (withQuit env cfg body).1.all recordedEvent = true := by
  rw [withQuit_eq]
  cases hc : env.onConstruct cfg
  case error e => simp [recordedEvent, recordedOp]
  case ok u =>
    have hb := h.2.2
    cases hq : env.onQuit <;>
    simp [List.all_append, List.all_cons, recordedEvent, recordedOp, hb]

/-- Two library behaviours with the same response to every call are the same
behaviour. -/
lemma Env.ext12 (env₁ env₂ : Env)
    (h1 : env₁.onConstruct = env₂.onConstruct)
    (h2 : env₁.onGet = env₂.onGet)
    (h3 : env₁.onTitle = env₂.onTitle)
    (h4 : env₁.onCurrentUrl = env₂.onCurrentUrl)
    (h5 : env₁.onPageSource = env₂.onPageSource)
    (h6 : env₁.onFindElement = env₂.onFindElement)
    (h7 : env₁.onFindElements = env₂.onFindElements)
    (h8 : env₁.onExecuteScript = env₂.onExecuteScript)
    (h9 : env₁.onGetCookies = env₂.onGetCookies)
    (h10 : env₁.onGetWindowSize = env₂.onGetWindowSize)
    (h11 : env₁.onGetHeaders = env₂.onGetHeaders)
    (h12 : env₁.onQuit = env₂.onQuit) : env₁ = env₂ := by
  cases env₁
  cases env₂
  simp_all

lemma ua_line : ("User-Agent: " ++ "Not found" : String) = "User-Agent: Not found" := rfl

lemma acc_line : ("Accept: " ++ "Not found" : String) = "Accept: Not found" := rfl

/-- The five example functions that acquire a driver session. -/
def acquiringExamples : List (Env → M Unit) :=
  [example_basic_usage, example_with_headers, example_selenium_compatibility,
   example_context_manager, example_custom_options]

/-- All six example functions the script defines. -/
def allExamples : List (Env → M Unit) :=
  [example_basic_usage, example_with_headers, example_with_proxy,
   example_selenium_compatibility, example_context_manager, example_custom_options]

/-- C1: in every example function that acquires a StealthChrome driver
session (examples 1, 2 and 4 with a manual quit() in a finally block, the
context-manager example 5 with automatic release on leaving the with-scope,
and example 6), for every behaviour of the external library — so on every
exit path, whether the body completes normally or raises — the quit calls in
the trace balance the successful constructor calls, and at most one session
is acquired: every acquired session is released exactly once. -/
theorem claim1_sessions_released_exactly_once (env : Env) :
    (releases (example_basic_usage env).1 = acquires (example_basic_usage env).1 ∧
      acquires (example_basic_usage env).1 ≤ 1) ∧
    (releases (example_with_headers env).1 = acquires (example_with_headers env).1 ∧
      acquires (example_with_headers env).1 ≤ 1) ∧
    (releases (example_selenium_compatibility env).1 =
        acquires (example_selenium_compatibility env).1 ∧
      acquires (example_selenium_compatibility env).1 ≤ 1) ∧
    (releases (example_context_manager env).1 = acquires (example_context_manager env).1 ∧
      acquires (example_context_manager env).1 ≤ 1) ∧
    (releases (example_custom_options env).1 = acquires (example_custom_options env).1 ∧
      acquires (example_custom_options env).1 ≤ 1) :=
  ⟨withQuit_counts env cfgHeadless (basicBody env) (basicBody_tame env),
   withQuit_counts env cfgHeadless (headersBody env) (headersBody_tame env),
   withQuit_counts env cfgHeadless (seleniumBody env) (seleniumBody_tame env),
   withQuit_counts env cfgHeadless (contextBody env) (contextBody_tame env),
   withQuit_counts env cfgCustom (customBody env) (customBody_tame env)⟩

/-- C2: for every behaviour of the external library, the main guard never
re-raises (its outcome is always normal), and whenever the example sequence
raises with message e, the run's trace is exactly the sequence's trace
followed by the error print carrying e and the full stack trace, so nothing
further runs after the handler. -/
theorem claim2_top_level_catch_all (env : Env) :
    (mainRun env).2 = Except.ok () ∧
    ∀ e, (mainTry env).2 = Except.error e →
      (mainRun env).1 = (mainTry env).1 ++ [Event.print (errLine e), Event.traceback] :=
  ⟨rfl, fun e h => mainRun_eq_error env e h⟩

/-- C3 counterexample: invoked on a concrete library behaviour, the proxy
example makes no driver call at all — it constructs no driver (with or
without proxy settings) and performs no navigation; its whole trace is the
banner and a placeholder print. -/
theorem claim3_counterexample :
    callOps (example_with_proxy envOK).1 = [] ∧
    (example_with_proxy envOK).1 =
      [Event.enter "example_with_proxy",
       Event.print "\n=== Example 3: Using Proxy ===",
       Event.print "(Proxy example commented out - add your proxy details to test)"] :=
  ⟨rfl, rfl⟩

/-- C3 amended: the proxy-configured construction and navigation exist only
as comments in the source; when invoked, the proxy example issues no driver
operation and only prints its banner and a placeholder message, for every
library behaviour. -/
theorem claim3_amended_proxy_example_only_prints (env : Env) :
    example_with_proxy env =
      ([Event.enter "example_with_proxy",
        Event.print "\n=== Example 3: Using Proxy ===",
        Event.print "(Proxy example commented out - add your proxy details to test)"],
       Except.ok ()) ∧
    callOps (example_with_proxy env).1 = [] :=
  ⟨rfl, rfl⟩

/-- C4: in the header-extraction example, for every library behaviour every
driver call outside the standard WebDriver surface is a get_headers call and
there is at most one such call; and on the success path the example consumes
get_headers exactly once, treating its result as a mapping read with
dict.get under the header-name keys user-agent and accept. -/
theorem claim4_one_nonstandard_accessor (env : Env) :
    (((callOps (example_with_headers env).1).filter fun p => !standardOp p.1).all
       fun p => p.1 == DriverOp.get_headers) = true ∧
    ((callOps (example_with_headers env).1).countP
       fun p => p.1 == DriverOp.get_headers) ≤ 1 ∧
    ∀ m, env.onConstruct cfgHeadless = Except.ok () →
      env.onGet "https://httpbin.org/headers" = Except.ok () →
      env.onGetHeaders = Except.ok m →
      env.onQuit = Except.ok () →
      example_with_headers env =
        ([Event.enter "example_with_headers",
          Event.print "\n=== Example 2: Extract Headers ===",
          Event.call (DriverOp.construct cfgHeadless) false,
          Event.call (DriverOp.get "https://httpbin.org/headers") false,
          Event.call DriverOp.get_headers false,
          Event.print ("User-Agent: " ++ dictGet m "user-agent" "Not found"),
          Event.print ("Accept: " ++ dictGet m "accept" "Not found"),
          Event.call DriverOp.quit false], Except.ok ()) := by
  refine ⟨?_, ?_, fun m hc hg hh hq => headers_success_trace env m hc hg hh hq⟩
  all_goals
    cases hc : env.onConstruct cfgHeadless <;>
    cases hg : env.onGet "https://httpbin.org/headers" <;>
    cases hh : env.onGetHeaders <;>
    cases hq : env.onQuit <;>
    simp [example_with_headers, headersBody, withQuit, tryFinally, quitStep,
          M.bind, dcall, mprint, menter, standardOp, recordedOp, hc, hg, hh, hq]

/-- C5: in any single run, each example function is entered at most once;
and after the top-level handler catches an exception, the only further
events are the error print and the stack trace — no example function is
entered again and no driver operation is issued again. -/
theorem claim5_no_retry_after_catch (env : Env) :
    (∀ n, enters n (mainRun env).1 ≤ 1) ∧
    ∀ e, (mainTry env).2 = Except.error e →
      (mainRun env).1 = (mainTry env).1 ++ [Event.print (errLine e), Event.traceback] ∧
      callOps [Event.print (errLine e), Event.traceback] = [] ∧
      ∀ n, enters n [Event.print (errLine e), Event.traceback] = 0 := by
  constructor
  · intro n
    rw [mainRun_enters]
    split <;> simp
  · intro e h
    exact ⟨mainRun_eq_error env e h, rfl, fun n => by simp [enters]⟩

/-- C6: in every driver-acquiring example function, for every library
behaviour the first driver call is the construction, no later driver call is
a construction, and whenever construction succeeded the last driver call on
the path is the quit release; moreover on the full-success paths of the two
cited examples the trace is exactly construction, then each automation call
followed by the print of its result, then quit. -/
theorem claim6_construct_call_print_release_flow (env : Env) :
    (∀ f ∈ acquiringExamples,
       ∃ cfg b rest, callOps (f env).1 = (DriverOp.construct cfg, b) :: rest ∧
         (rest.all fun p => !isConstructOp p.1) = true ∧
         (b = false → ∃ r, (callOps (f env).1).getLast? = some (DriverOp.quit, r))) ∧
    (∀ t u el, env.onConstruct cfgHeadless = Except.ok () →
      env.onGet "https://example.com" = Except.ok () →
      env.onTitle = Except.ok t →
      env.onCurrentUrl = Except.ok u →
      env.onFindElement "tag name" "h1" = Except.ok el →
      env.onQuit = Except.ok () →
      example_basic_usage env =
        ([Event.enter "example_basic_usage",
          Event.print "\n=== Example 1: Basic Usage (Just like Selenium) ===",
          Event.call (DriverOp.construct cfgHeadless) false,
          Event.call (DriverOp.get "https://example.com") false,
          Event.call DriverOp.title false,
          Event.print ("Page Title: " ++ t),
          Event.call DriverOp.current_url false,
          Event.print ("Page URL: " ++ u),
          Event.call (DriverOp.find_element "tag name" "h1") false,
          Event.print ("Found element: " ++ el.text),
          Event.call DriverOp.quit false], Except.ok ())) ∧
    (∀ u srcS res els cookies, env.onConstruct cfgHeadless = Except.ok () →
      env.onGet "https://example.com" = Except.ok () →
      env.onCurrentUrl = Except.ok u →
      env.onPageSource = Except.ok srcS →
      env.onFindElements "tag name" "p" = Except.ok els →
      env.onExecuteScript "return document.title;" = Except.ok res →
      env.onGetCookies = Except.ok cookies →
      env.onQuit = Except.ok () →
      example_selenium_compatibility env =
        ([Event.enter "example_selenium_compatibility",
          Event.print "\n=== Example 4: Full Selenium Compatibility ===",
          Event.call (DriverOp.construct cfgHeadless) false,
          Event.call (DriverOp.get "https://example.com") false,
          Event.call DriverOp.current_url false,
          Event.print ("Current URL: " ++ u),
          Event.call DriverOp.page_source false,
          Event.print ("Page Source Length: " ++ toString srcS.length),
          Event.call (DriverOp.find_elements "tag name" "p") false,
          Event.print ("Found " ++ toString els.length ++ " paragraph elements"),
          Event.call (DriverOp.execute_script "return document.title;") false,
          Event.print ("Title via JavaScript: " ++ res),
          Event.call DriverOp.get_cookies false,
          Event.print ("Cookies: " ++ toString cookies.length ++ " found"),
          Event.call DriverOp.quit false], Except.ok ())) := by
  refine ⟨?_, ?_, ?_⟩
  · intro f hf
    simp only [acquiringExamples, List.mem_cons, List.not_mem_nil, or_false] at hf
    rcases hf with rfl | rfl | rfl | rfl | rfl
    · exact ⟨cfgHeadless, withQuit_shape env cfgHeadless (basicBody env) (basicBody_tame env)⟩
    · exact ⟨cfgHeadless, withQuit_shape env cfgHeadless (headersBody env) (headersBody_tame env)⟩
    · exact ⟨cfgHeadless, withQuit_shape env cfgHeadless (seleniumBody env) (seleniumBody_tame env)⟩
    · exact ⟨cfgHeadless, withQuit_shape env cfgHeadless (contextBody env) (contextBody_tame env)⟩
    · exact ⟨cfgCustom, withQuit_shape env cfgCustom (customBody env) (customBody_tame env)⟩
  · intro t u el hc hg ht hu he hq
    exact basic_success_trace env t u el hc hg ht hu he hq
  · intro u srcS res els cookies hc hg hu hs he hx hk hq
    exact selenium_success_trace env u srcS res els cookies hc hg hu hs he hx hk hq

/-- C7: the script is deterministic sequential code: two runs in which the
external driver library returns identical values to every call produce
identical runs — the same sequence of driver calls and the same printed
output (the whole event trace and outcome coincide). -/
theorem claim7_deterministic_given_library (env₁ env₂ : Env)
    (h1 : env₁.onConstruct = env₂.onConstruct)
    (h2 : env₁.onGet = env₂.onGet)
    (h3 : env₁.onTitle = env₂.onTitle)
    (h4 : env₁.onCurrentUrl = env₂.onCurrentUrl)
    (h5 : env₁.onPageSource = env₂.onPageSource)
    (h6 : env₁.onFindElement = env₂.onFindElement)
    (h7 : env₁.onFindElements = env₂.onFindElements)
    (h8 : env₁.onExecuteScript = env₂.onExecuteScript)
    (h9 : env₁.onGetCookies = env₂.onGetCookies)
    (h10 : env₁.onGetWindowSize = env₂.onGetWindowSize)
    (h11 : env₁.onGetHeaders = env₂.onGetHeaders)
    (h12 : env₁.onQuit = env₂.onQuit) :
    mainRun env₁ = mainRun env₂ := by
  rw [Env.ext12 env₁ env₂ h1 h2 h3 h4 h5 h6 h7 h8 h9 h10 h11 h12]

theorem claim7_witness : mainRun envOK = mainRun envOK :=
  claim7_deterministic_given_library envOK envOK
    rfl rfl rfl rfl rfl rfl rfl rfl rfl rfl rfl rfl

/-- C8: for every library behaviour, every driver operation the script
issues — across the whole main run and in each of the six example functions
— lies within the recorded interface: the constructor, the listed standard
WebDriver surface, and the single non-standard get_headers accessor. -/
theorem claim8_only_recorded_interface (env : Env) :
    ((mainRun env).1.all recordedEvent = true) ∧
    ∀ f ∈ allExamples, ((f env).1.all recordedEvent = true) := by
  have hex : ∀ f ∈ allExamples, ((f env).1.all recordedEvent = true) := by
    intro f hf
    simp only [allExamples, List.mem_cons, List.not_mem_nil, or_false] at hf
    rcases hf with rfl | rfl | rfl | rfl | rfl | rfl
    · rw [example_basic_usage_eq]
      simp [recordedEvent,
        withQuit_recorded env cfgHeadless (basicBody env) (basicBody_tame env)]
    · rw [example_with_headers_eq]
      simp [recordedEvent,
        withQuit_recorded env cfgHeadless (headersBody env) (headersBody_tame env)]
    · simp [example_with_proxy, M.bind, mprint, menter, recordedEvent]
    · rw [example_selenium_compatibility_eq]
      simp [recordedEvent,
        withQuit_recorded env cfgHeadless (seleniumBody env) (seleniumBody_tame env)]
    · rw [example_context_manager_eq]
      simp [recordedEvent,
        withQuit_recorded env cfgHeadless (contextBody env) (contextBody_tame env)]
    · rw [example_custom_options_eq]
      simp [recordedEvent,
        withQuit_recorded env cfgCustom (customBody env) (customBody_tame env)]
  refine ⟨?_, hex⟩
  have hcust := hex example_custom_options (by simp [allExamples])
  obtain ⟨tail, hdec, _, _, htailrec⟩ := mainTry_decomp env
  cases hr : (mainTry env).2
  case error e =>
    rw [mainRun_eq_error env e hr, hdec]
    simp [List.all_append, hcust, htailrec, recordedEvent]
  case ok u =>
    rw [mainRun_eq_ok env u hr, hdec]
    simp [List.all_append, hcust, htailrec]

/-- C9: when the file runs as main, exactly one example function is entered,
example_custom_options, and the other five example functions are never
entered in that run, whatever the library does. -/
theorem claim9_exactly_one_example_runs (env : Env) :
    enters "example_custom_options" (mainRun env).1 = 1 ∧
    enters "example_basic_usage" (mainRun env).1 = 0 ∧
    enters "example_with_headers" (mainRun env).1 = 0 ∧
    enters "example_with_proxy" (mainRun env).1 = 0 ∧
    enters "example_selenium_compatibility" (mainRun env).1 = 0 ∧
    enters "example_context_manager" (mainRun env).1 = 0 := by
  refine ⟨?_, ?_, ?_, ?_, ?_, ?_⟩ <;> rw [mainRun_enters] <;> decide

/-- C10: in the header-extraction example, when the calls succeed and the
returned mapping lacks the key user-agent or the key accept, the script
prints the default line with Not found for that header, and the example
still completes without an exception. -/
theorem claim10_missing_header_prints_default (env : Env) (m : List (String × String))
    (hc : env.onConstruct cfgHeadless = Except.ok ())
    (hg : env.onGet "https://httpbin.org/headers" = Except.ok ())
    (hh : env.onGetHeaders = Except.ok m)
    (hq : env.onQuit = Except.ok ()) :
    (example_with_headers env).2 = Except.ok () ∧
    (m.lookup "user-agent" = none →
      Event.print "User-Agent: Not found" ∈ (example_with_headers env).1) ∧
    (m.lookup "accept" = none →
      Event.print "Accept: Not found" ∈ (example_with_headers env).1) := by
  have ht := headers_success_trace env m hc hg hh hq
  refine ⟨by rw [ht], ?_, ?_⟩
  · intro hua
    have hdg : dictGet m "user-agent" "Not found" = "Not found" := by
      simp [dictGet, hua]
    rw [ht]
    simp [hdg, ua_line]
  · intro hac
    have hdg : dictGet m "accept" "Not found" = "Not found" := by
      simp [dictGet, hac]
    rw [ht]
    simp [hdg, acc_line]

theorem claim10_witness :
    Event.print "User-Agent: Not found" ∈ (example_with_headers envNoHeaders).1 :=
  (claim10_missing_header_prints_default envNoHeaders [] rfl rfl rfl rfl).2.1 rfl

end Stealthium
